import Mathlib

/-!
Shallow embedding of the `prompti` model-client adapter layer
(`src/prompti/model_client/openai.py`, `src/prompti/model_client/claude.py`,
`src/prompti/model_client/base.py`).

Python strings are embedded as `List Char`, Python values (the dynamic
payloads flowing through the adapters) as the inductive `PyVal`, and the
adapters' async-generator bodies as pure functions from the request
parameters and a fixed HTTP response to the list of yielded messages plus
an optional uncaught exception.  `json.dumps` / `json.loads` are embedded
by an executable serializer and a fuel-based parser over `List Char`
(numeric literals are restricted to integers; no property below involves
fractional numbers).
-/

namespace Prompti

/-- A Python `str`, embedded as its list of characters. -/
abbrev Str := List Char

/-- Coerce a Lean string literal to the embedded `Str` type. -/
def pys (s : String) : Str := s.data

/-- A dynamic Python value as it appears in the adapters' JSON payloads:
`None`, `bool`, `int`, `str`, `list`, `dict` (association list preserving
insertion order, keys unique by construction of the operations below). -/
inductive PyVal : Type where
  | null : PyVal
  | bool (b : Bool) : PyVal
  | num (n : Int) : PyVal
  | str (s : Str) : PyVal
  | arr (xs : List PyVal) : PyVal
  | obj (kvs : List (Str × PyVal)) : PyVal

instance : Inhabited PyVal := ⟨.null⟩

/-- A Python dictionary body: ordered association list. -/
abbrev Dict := List (Str × PyVal)

/-- Python truthiness (`bool(v)`) for the embedded values. -/
def pyTruthy : PyVal → Bool
  | .null => false
  | .bool b => b
  | .num n => n ≠ 0
  | .str s => s ≠ []
  | .arr xs => !xs.isEmpty
  | .obj kvs => !kvs.isEmpty

/-- `k in d` for a Python dict. -/
def hasKey (d : Dict) (k : Str) : Bool :=
  d.any (fun kv => kv.1 = k)

/-- `d.get(k)` returning `none` when the key is absent. -/
def dictGet? (d : Dict) (k : Str) : Option PyVal :=
  (d.find? (fun kv => kv.1 = k)).map Prod.snd

/-- `d.get(k, default)`. -/
def dictGetD (d : Dict) (k : Str) (dflt : PyVal) : PyVal :=
  (dictGet? d k).getD dflt

/-- `d[k] = v` with Python dict semantics: replace in place when the key
exists, append otherwise. -/
def dictSet : Dict → Str → PyVal → Dict
  | [], k, v => [(k, v)]
  | (k', v') :: t, k, v =>
      if k' = k then (k, v) :: t else (k', v') :: dictSet t k v

/-- `d.update(e)`: set each entry of `e` in turn. -/
def dictUpdate (d : Dict) : Dict → Dict
  | [] => d
  | kv :: t => dictUpdate (dictSet d kv.1 kv.2) t

/-- Python `a or b` on values (first operand when truthy, else second). -/
def pyOr (a b : PyVal) : PyVal :=
  if pyTruthy a then a else b

/-- Decimal digits of a natural number, fuel-based (auxiliary for `dumps`). -/
def natDigitsAux : Nat → Nat → Str
  | 0, _ => []
  | fuel + 1, n =>
      if n = 0 then [] else natDigitsAux fuel (n / 10) ++ [Char.ofNat (n % 10 + 48)]

/-- Decimal digits of a natural number. -/
def natDigits (n : Nat) : Str :=
  natDigitsAux (n + 1) n

/-- Python `str(i)` for an integer. -/
def intToStr (i : Int) : Str :=
  if i = 0 then ['0']
  else if i < 0 then '-' :: natDigits i.natAbs
  else natDigits i.natAbs

/-- Hex digit for `\uXXXX` escapes (lower case, as CPython emits). -/
def hexDigit (n : Nat) : Char :=
  if n < 10 then Char.ofNat (n + 48) else Char.ofNat (n - 10 + 97)

/-- JSON string escaping of one character, following `json.dumps` with its
default `ensure_ascii=True`. -/
def escChar (c : Char) : Str :=
  if c = '"' then ['\\', '"']
  else if c = '\\' then ['\\', '\\']
  else if c = '\n' then ['\\', 'n']
  else if c = '\t' then ['\\', 't']
  else if c = '\r' then ['\\', 'r']
  else if c = Char.ofNat 8 then ['\\', 'b']
  else if c = Char.ofNat 12 then ['\\', 'f']
  else if c.toNat < 32 ∨ c.toNat > 126 then
    ['\\', 'u', hexDigit (c.toNat / 4096 % 16), hexDigit (c.toNat / 256 % 16),
     hexDigit (c.toNat / 16 % 16), hexDigit (c.toNat % 16)]
  else [c]

/-- JSON string literal for `s` (quotes plus escaping). -/
def dumpStr (s : Str) : Str :=
  '"' :: (s.foldr (fun c acc => escChar c ++ acc) ['"'])

mutual

/-- `json.dumps` with CPython's default separators `", "` and `": "`. -/
def dumps : PyVal → Str
  | .null => pys "null"
  | .bool true => pys "true"
  | .bool false => pys "false"
  | .num n => intToStr n
  | .str s => dumpStr s
  | .arr xs => '[' :: dumpsArr xs ++ [']']
  | .obj kvs => '{' :: dumpsObj kvs ++ ['}']

/-- Serialize array elements, comma-separated. -/
def dumpsArr : List PyVal → Str
  | [] => []
  | [x] => dumps x
  | x :: y :: t => dumps x ++ ',' :: ' ' :: dumpsArr (y :: t)

/-- Serialize object entries, comma-separated, `": "` between key and value. -/
def dumpsObj : List (Str × PyVal) → Str
  | [] => []
  | [(k, v)] => dumpStr k ++ ':' :: ' ' :: dumps v
  | (k, v) :: e :: t => dumpStr k ++ ':' :: ' ' :: dumps v ++ ',' :: ' ' :: dumpsObj (e :: t)

end

/-- JSON whitespace (the four characters `json.loads` skips between tokens). -/
def jsonWs (c : Char) : Bool :=
  c = ' ' ∨ c = '\t' ∨ c = '\n' ∨ c = '\r'

/-- Drop leading JSON whitespace. -/
def skipWs (s : Str) : Str :=
  s.dropWhile jsonWs

/-- Decimal digit test. -/
def isDigit (c : Char) : Bool :=
  48 ≤ c.toNat ∧ c.toNat ≤ 57

/-- Hex digit value, if `c` is one. -/
def hexVal (c : Char) : Option Nat :=
  if 48 ≤ c.toNat ∧ c.toNat ≤ 57 then some (c.toNat - 48)
  else if 97 ≤ c.toNat ∧ c.toNat ≤ 102 then some (c.toNat - 87)
  else if 65 ≤ c.toNat ∧ c.toNat ≤ 70 then some (c.toNat - 55)
  else none

/-- Parse the body of a JSON string literal (opening quote consumed),
returning the decoded characters and the rest of the input. -/
def parseStrBody : Nat → Str → Option (Str × Str)
  | 0, _ => none
  | _, [] => none
  | fuel + 1, c :: rest =>
      if c = '"' then some ([], rest)
      else if c = '\\' then
        match rest with
        | [] => none
        | e :: rest' =>
            let cont (decoded : Char) (r : Str) : Option (Str × Str) :=
              match parseStrBody fuel r with
              | some (s, r') => some (decoded :: s, r')
              | none => none
            if e = '"' then cont '"' rest'
            else if e = '\\' then cont '\\' rest'
            else if e = '/' then cont '/' rest'
            else if e = 'b' then cont (Char.ofNat 8) rest'
            else if e = 'f' then cont (Char.ofNat 12) rest'
            else if e = 'n' then cont '\n' rest'
            else if e = 'r' then cont '\r' rest'
            else if e = 't' then cont '\t' rest'
            else if e = 'u' then
              match rest' with
              | h1 :: h2 :: h3 :: h4 :: r =>
                  match hexVal h1, hexVal h2, hexVal h3, hexVal h4 with
                  | some a, some b, some c', some d =>
                      cont (Char.ofNat (a * 4096 + b * 256 + c' * 16 + d)) r
                  | _, _, _, _ => none
              | _ => none
            else none
      else
        match parseStrBody fuel rest with
        | some (s, r') => some (c :: s, r')
        | none => none

/-- Parse a run of decimal digits into a natural number. -/
def parseDigits : Str → Option (Nat × Str)
  | s =>
      let ds := s.takeWhile isDigit
      if ds = [] then none
      else some (ds.foldl (fun acc c => acc * 10 + (c.toNat - 48)) 0, s.dropWhile isDigit)

/-- Parse a JSON integer literal (fraction/exponent forms are rejected —
no property in this development involves fractional numbers). -/
def parseNum (s : Str) : Option (PyVal × Str) :=
  let (neg, s') := match s with
    | '-' :: t => (true, t)
    | _ => (false, s)
  match parseDigits s' with
  | none => none
  | some (n, rest) =>
      match rest with
      | '.' :: _ => none
      | 'e' :: _ => none
      | 'E' :: _ => none
      | _ => some (.num (if neg then -(n : Int) else (n : Int)), rest)

mutual

/-- Fuel-based JSON value parser (the core of `json.loads`). -/
def parseVal : Nat → Str → Option (PyVal × Str)
  | 0, _ => none
  | fuel + 1, s =>
      match skipWs s with
      | [] => none
      | c :: rest =>
          if c = '"' then
            match parseStrBody (rest.length + 1) rest with
            | some (str, r) => some (.str str, r)
            | none => none
          else if c = '[' then
            match skipWs rest with
            | ']' :: r => some (.arr [], r)
            | _ =>
                match parseArrItems fuel rest [] with
                | some (xs, r) => some (.arr xs, r)
                | none => none
          else if c = '{' then
            match skipWs rest with
            | '}' :: r => some (.obj [], r)
            | _ =>
                match parseObjItems fuel rest [] with
                | some (kvs, r) => some (.obj kvs, r)
                | none => none
          else if c = 't' then
            match rest with
            | 'r' :: 'u' :: 'e' :: r => some (.bool true, r)
            | _ => none
          else if c = 'f' then
            match rest with
            | 'a' :: 'l' :: 's' :: 'e' :: r => some (.bool false, r)
            | _ => none
          else if c = 'n' then
            match rest with
            | 'u' :: 'l' :: 'l' :: r => some (.null, r)
            | _ => none
          else parseNum (c :: rest)

/-- Comma-separated array items (`[` already consumed, array known non-empty). -/
def parseArrItems : Nat → Str → List PyVal → Option (List PyVal × Str)
  | 0, _, _ => none
  | fuel + 1, s, acc =>
      match parseVal fuel s with
      | none => none
      | some (v, r) =>
          match skipWs r with
          | ',' :: r' => parseArrItems fuel r' (acc ++ [v])
          | ']' :: r' => some (acc ++ [v], r')
          | _ => none

/-- Comma-separated object entries (`{` already consumed, object known
non-empty).  Entries are inserted with `dictSet`, so a duplicate key keeps
the last value, as a Python dict does. -/
def parseObjItems : Nat → Str → Dict → Option (Dict × Str)
  | 0, _, _ => none
  | fuel + 1, s, acc =>
      match skipWs s with
      | '"' :: rest =>
          match parseStrBody (rest.length + 1) rest with
          | none => none
          | some (k, r) =>
              match skipWs r with
              | ':' :: r' =>
                  match parseVal fuel r' with
                  | none => none
                  | some (v, r'') =>
                      let acc' := dictSet acc k v
                      match skipWs r'' with
                      | ',' :: r3 => parseObjItems fuel r3 acc'
                      | '}' :: r3 => some (acc', r3)
                      | _ => none
              | _ => none
      | _ => none

end

/-- `json.loads`: parse a complete document, requiring only trailing
whitespace after the value. -/
def loads (s : Str) : Option PyVal :=
  match parseVal (2 * s.length + 8) s with
  | some (v, rest) => if skipWs rest = [] then some v else none
  | none => none

/-- `prompti.message.Message`: role, kind and a dynamic content value. -/
structure Message where
  role : Str
  kind : Str
  content : PyVal

/-- `ModelConfig` (the fields the adapters read when building a payload). -/
structure ModelConfig where
  provider : Str
  model : Str

/-- `ToolChoice` from `base.py`: AUTO="auto", BLOCK="none",
REQUIRED="required", FORCE="force". -/
inductive ToolChoice : Type where
  | auto : ToolChoice
  | block : ToolChoice
  | required : ToolChoice
  | force : ToolChoice
  deriving DecidableEq

/-- The `.value` string of a `ToolChoice` member. -/
def ToolChoice.val : ToolChoice → Str
  | .auto => pys "auto"
  | .block => pys "none"
  | .required => pys "required"
  | .force => pys "force"

/-- `ToolSpec`: name, description, JSON-schema-like parameters. -/
structure ToolSpec where
  name : Str
  description : Str
  parameters : PyVal

/-- An entry of `ToolParams.tools`, which Python types as
`list[ToolSpec] | list[dict]`. -/
inductive SpecOrDict : Type where
  | spec (s : ToolSpec) : SpecOrDict
  | raw (d : PyVal) : SpecOrDict

/-- `ToolParams.choice`, typed `ToolChoice | dict[str, Any]` in Python. -/
inductive ChoiceVal : Type where
  | enum (c : ToolChoice) : ChoiceVal
  | raw (d : PyVal) : ChoiceVal

/-- `ToolParams` from `base.py`. -/
structure ToolParams where
  tools : List SpecOrDict
  choice : ChoiceVal := .enum .auto
  force_tool : Option Str := none
  parallel_allowed : Bool := true
  max_calls : Option Int := none

/-- `RunParams.tool_params`, typed
`ToolParams | list[ToolSpec] | list[dict] | None`. -/
inductive ToolParamsArg : Type where
  | params (tp : ToolParams) : ToolParamsArg
  | rawList (l : List SpecOrDict) : ToolParamsArg

/-- `RunParams` from `base.py`; sampling knobs are kept as dynamic values
(only their presence and pass-through matter to the adapters). -/
structure RunParams where
  messages : List Message
  tool_params : Option ToolParamsArg := none
  temperature : Option PyVal := none
  top_p : Option PyVal := none
  top_k : Option PyVal := none
  max_tokens : Option PyVal := none
  stop : Option PyVal := none
  stream : Bool := true
  n : Option PyVal := none
  seed : Option PyVal := none
  logit_bias : Option PyVal := none
  response_format : Option Str := none
  user_id : Option Str := none
  request_id : Option Str := none
  session_id : Option Str := none
  extra_params : Dict := []

/-- An uncaught Python exception class, as far as the adapters distinguish
them (`json.JSONDecodeError` is the one the streaming loops catch). -/
inductive PyErr : Type where
  | jsonDecode : PyErr
  | typeError : PyErr
  | keyError : PyErr
  | indexError : PyErr
  | attrError : PyErr
  deriving DecidableEq

/-- The vendor's HTTP response as the adapter observes it: status code, the
raw body text (`resp.text` / `resp.json()`), and the SSE lines
(`resp.aiter_lines()`) for the streaming path. -/
structure Response where
  status : Nat
  text : Str
  lines : List Str := []

/-- Set `d[k] = v` when the optional value is present (`if value is not
None: payload[key] = value`). -/
def setIfSome (d : Dict) (k : Str) : Option PyVal → Dict
  | none => d
  | some v => dictSet d k v

/-- OpenAI tool entry: `{"type": "function", "function": t.model_dump()}`
for a `ToolSpec`, the raw dict otherwise. -/
def openaiTool : SpecOrDict → PyVal
  | .spec t =>
      .obj [(pys "type", .str (pys "function")),
            (pys "function", .obj [(pys "name", .str t.name),
                                   (pys "description", .str t.description),
                                   (pys "parameters", t.parameters)])]
  | .raw d => d

/-- Translate one canonical message to an OpenAI wire message
(`openai.py` lines 36-63); `none` = the kind is dropped; errors are the
uncaught exceptions the translation can raise. -/
def openaiMessage (m : Message) : Except PyErr (Option Dict) :=
  let role := if m.kind = pys "tool_result" then pys "tool" else m.role
  let base : Dict := [(pys "role", .str role)]
  if m.kind = pys "text" ∨ m.kind = pys "thinking" then
    .ok (some (dictSet base (pys "content") m.content))
  else if m.kind = pys "image_url" then
    .ok (some (dictSet base (pys "content")
      (.arr [.obj [(pys "type", .str (pys "image_url")),
                   (pys "image_url", .obj [(pys "url", m.content)])]])))
  else if m.kind = pys "tool_use" then
    let dataE : Except PyErr Dict :=
      match m.content with
      | .obj kvs => .ok kvs
      | .str s =>
          match loads s with
          | some (.obj kvs) => .ok kvs
          | some _ => .error .attrError
          | none => .error .jsonDecode
      | _ => .error .typeError
    match dataE with
    | .error e => .error e
    | .ok data =>
        let d1 := dictSet base (pys "content") .null
        .ok (some (dictSet d1 (pys "tool_calls")
          (.arr [.obj [(pys "type", .str (pys "function")),
                       (pys "function",
                        .obj [(pys "name", dictGetD data (pys "name") .null),
                              (pys "arguments",
                               .str (dumps (dictGetD data (pys "arguments") (.obj []))))])]])))
  else if m.kind = pys "tool_result" then
    let c := match m.content with
      | .str s => PyVal.str s
      | v => PyVal.str (dumps v)
    .ok (some (dictSet base (pys "content") c))
  else
    .ok none

/-- The OpenAI wire messages for a canonical history. -/
def openaiMessages : List Message → Except PyErr (List Dict)
  | [] => .ok []
  | m :: t =>
      match openaiMessage m with
      | .error e => .error e
      | .ok none => openaiMessages t
      | .ok (some d) =>
          match openaiMessages t with
          | .error e => .error e
          | .ok ds => .ok (d :: ds)

/-- The outgoing OpenAI wire payload (`openai.py` lines 35-101), up to and
including the final `payload.update(p.extra_params)`. -/
def openaiPayload (cfg : ModelConfig) (p : RunParams) : Except PyErr Dict :=
  match openaiMessages p.messages with
  | .error e => .error e
  | .ok msgs =>
      let d : Dict := [(pys "model", .str cfg.model),
                       (pys "messages", .arr (msgs.map PyVal.obj))]
      let d := setIfSome d (pys "temperature") p.temperature
      let d := setIfSome d (pys "top_p") p.top_p
      let d := setIfSome d (pys "max_tokens") p.max_tokens
      let d := setIfSome d (pys "n") p.n
      let d := setIfSome d (pys "seed") p.seed
      let d := setIfSome d (pys "logit_bias") p.logit_bias
      let d := dictSet d (pys "stream") (.bool p.stream)
      let d := match p.stop with
        | some v => if pyTruthy v then dictSet d (pys "stop") v else d
        | none => d
      let d := match p.response_format with
        | some s =>
            if s ≠ [] then
              dictSet d (pys "response_format") (.obj [(pys "type", .str s)])
            else d
        | none => d
      let d := match p.user_id with
        | some s => if s ≠ [] then dictSet d (pys "user") (.str s) else d
        | none => d
      let d := match p.tool_params with
        | some (.params tp) =>
            let d := dictSet d (pys "tools") (.arr (tp.tools.map openaiTool))
            (match tp.choice with
             | .enum c =>
                 if c ≠ ToolChoice.auto then
                   dictSet d (pys "tool_choice") (.str c.val)
                 else d
             | .raw v => dictSet d (pys "tool_choice") v)
        | some (.rawList l) => dictSet d (pys "tools") (.arr (l.map openaiTool))
        | none => d
      .ok (dictUpdate d p.extra_params)

/-- Claude tool entry: `{"name", "description", "input_schema"}` for a
`ToolSpec`, the raw dict otherwise. -/
def claudeTool : SpecOrDict → PyVal
  | .spec t =>
      .obj [(pys "name", .str t.name),
            (pys "description", .str t.description),
            (pys "input_schema", t.parameters)]
  | .raw d => d

/-- Translate one canonical message to Claude content blocks
(`claude.py` lines 39-63); `none` = no block produced. -/
def claudeBlocks (m : Message) : Except PyErr (List PyVal) :=
  if m.kind = pys "text" then
    .ok [.obj [(pys "type", .str (pys "text")), (pys "text", m.content)]]
  else if m.kind = pys "thinking" then
    .ok [.obj [(pys "type", .str (pys "thinking")), (pys "thinking", m.content)]]
  else if m.kind = pys "image" ∨ m.kind = pys "image_url" then
    .ok [.obj [(pys "type", .str (pys "image")),
               (pys "source", .obj [(pys "type", .str (pys "url")),
                                    (pys "url", m.content)])]]
  else if m.kind = pys "tool_use" then
    let dataE : Except PyErr Dict :=
      match m.content with
      | .obj kvs => .ok kvs
      | .str s =>
          match loads s with
          | some (.obj kvs) => .ok kvs
          | some _ => .error .attrError
          | none => .error .jsonDecode
      | _ => .error .typeError
    match dataE with
    | .error e => .error e
    | .ok data =>
        .ok [.obj [(pys "type", .str (pys "tool_use")),
                   (pys "id", dictGetD data (pys "call_id") .null),
                   (pys "name", dictGetD data (pys "name") .null),
                   (pys "input", dictGetD data (pys "arguments") (.obj []))]]
  else if m.kind = pys "tool_result" then
    .ok [.obj [(pys "type", .str (pys "tool_result")), (pys "content", m.content)]]
  else
    .ok []

/-- The Claude wire messages (`if blocks: claude_msgs.append(...)`). -/
def claudeMessages : List Message → Except PyErr (List PyVal)
  | [] => .ok []
  | m :: t =>
      match claudeBlocks m with
      | .error e => .error e
      | .ok [] => claudeMessages t
      | .ok blocks =>
          match claudeMessages t with
          | .error e => .error e
          | .ok ds =>
              .ok (.obj [(pys "role", .str m.role), (pys "content", .arr blocks)] :: ds)

/-- The outgoing Claude wire payload (`claude.py` lines 38-109), up to and
including the final `payload.update(p.extra_params)`. -/
def claudePayload (cfg : ModelConfig) (p : RunParams) : Except PyErr Dict :=
  match claudeMessages p.messages with
  | .error e => .error e
  | .ok msgs =>
      let d : Dict := [(pys "model", .str cfg.model), (pys "messages", .arr msgs)]
      let d := setIfSome d (pys "temperature") p.temperature
      let d := setIfSome d (pys "top_p") p.top_p
      let d := setIfSome d (pys "top_k") p.top_k
      let d := setIfSome d (pys "max_tokens") p.max_tokens
      let d := dictSet d (pys "stream") (.bool p.stream)
      let d := match p.stop with
        | some v =>
            if pyTruthy v then
              dictSet d (pys "stop_sequences")
                (match v with
                 | .arr xs => .arr xs
                 | w => .arr [w])
            else d
        | none => d
      let d := match p.tool_params with
        | some (.params tp) =>
            let d := dictSet d (pys "tools") (.arr (tp.tools.map claudeTool))
            (match tp.choice with
             | .enum c =>
                 if c = ToolChoice.required then
                   dictSet d (pys "tool_choice") (.obj [(pys "type", .str (pys "any"))])
                 else d
             | .raw _ => d)
        | some (.rawList l) => dictSet d (pys "tools") (.arr (l.map claudeTool))
        | none => d
      .ok (dictUpdate d p.extra_params)

/-- What one adapter call delivers to its consumer: the yielded messages,
the values passed to the prompt/completion token counters, and the uncaught
exception that terminated the generator, if any. -/
structure GenOut where
  events : List Message := []
  ptoks : List PyVal := []
  ctoks : List PyVal := []
  err : Option PyErr := none

/-- Sequencing of generator segments: once a segment raised, nothing after
it runs. -/
def GenOut.seq (a b : GenOut) : GenOut :=
  match a.err with
  | some _ => a
  | none => ⟨a.events ++ b.events, a.ptoks ++ b.ptoks, a.ctoks ++ b.ctoks, b.err⟩

/-- Python `str.strip()` whitespace. -/
def pyWs (c : Char) : Bool :=
  c = ' ' ∨ c = '\t' ∨ c = '\n' ∨ c = '\r' ∨ c = Char.ofNat 11 ∨ c = Char.ofNat 12

/-- Python `s.strip()`. -/
def pyStrip (s : Str) : Str :=
  (s.dropWhile pyWs).reverse.dropWhile pyWs |>.reverse

/-- `a or b or c ...` over `usage.get(k)` for a key list. -/
def usageEntries (u : Dict) (keys : List Str) : PyVal :=
  (keys.map (fun k => dictGetD u k .null)).foldl pyOr .null

/-- The usage-reporting block shared by both adapters: truthy `usage` must
be a dict; a non-`None` token value is recorded as one counter increment. -/
def usageOut (usageV : PyVal) (ptKeys ctKeys : List Str) :
    Except PyErr (List PyVal × List PyVal) :=
  if pyTruthy usageV then
    match usageV with
    | .obj u =>
        .ok ((match usageEntries u ptKeys with | .null => [] | v => [v]),
             (match usageEntries u ctKeys with | .null => [] | v => [v]))
    | _ => .error .attrError
  else .ok ([], [])

/-- A finalized OpenAI tool-use event: the content is the *serialized*
`{"name": ..., "arguments": ...}` object. -/
def mkToolUseStr (nameV args : PyVal) : Message :=
  ⟨pys "assistant", pys "tool_use",
   .str (dumps (.obj [(pys "name", nameV), (pys "arguments", args)]))⟩

/-- The `for call in delta["tool_calls"]` loop of the OpenAI *streaming*
path (`openai.py` lines 122-134): a fragment with a truthy `name` yields
one event whose arguments are `json.loads` of that fragment's own argument
text; a fragment without a name yields nothing. -/
def openaiCallsStream : List PyVal → List Message × Option PyErr
  | [] => ([], none)
  | call :: t =>
      match call with
      | .obj ckvs =>
          match dictGetD ckvs (pys "function") (.obj []) with
          | .obj fkvs =>
              let nameV := dictGetD fkvs (pys "name") .null
              if pyTruthy nameV then
                match dictGetD fkvs (pys "arguments") (.str ['{', '}']) with
                | .str s =>
                    match loads s with
                    | some parsed =>
                        let (ms, e) := openaiCallsStream t
                        (mkToolUseStr nameV parsed :: ms, e)
                    | none => ([], some .jsonDecode)
                | _ => ([], some .typeError)
              else openaiCallsStream t
          | _ => ([], some .attrError)
      | _ => ([], some .attrError)

/-- Finish one streamed line: a caught `json.JSONDecodeError` keeps the
events already yielded and skips the rest of the line (usage included), any
other exception terminates the generator, and a clean line records its
usage counters after the events. -/
def streamLineOut (dkvs : Dict) : List Message × Option PyErr → GenOut
  | (msgs, some .jsonDecode) => {events := msgs}
  | (msgs, some e) => {events := msgs, err := some e}
  | (msgs, none) =>
      match usageOut (dictGetD dkvs (pys "usage") (.obj []))
          [pys "prompt_tokens", pys "input_tokens"]
          [pys "completion_tokens", pys "output_tokens"] with
      | .ok (pts, cts) => {events := msgs, ptoks := pts, ctoks := cts}
      | .error e => {events := msgs, err := some e}

/-- Decode one OpenAI SSE data payload (`openai.py` lines 116-148): a
`json.JSONDecodeError` anywhere in the `try` block skips the rest of the
line but keeps the events already yielded; any other exception terminates
the generator. -/
def openaiStreamLine (ds : Str) : GenOut :=
  match loads ds with
  | none => {}
  | some (.obj dkvs) =>
      match dictGetD dkvs (pys "choices") (.arr [.obj []]) with
      | .arr [] => {err := some .indexError}
      | .arr (c0 :: _) =>
          match c0 with
          | .obj ckvs =>
              match dictGetD ckvs (pys "delta") (.obj []) with
              | .obj deltaKvs =>
                  let step : List Message × Option PyErr :=
                    if hasKey deltaKvs (pys "tool_calls") then
                      match dictGetD deltaKvs (pys "tool_calls") .null with
                      | .arr calls => openaiCallsStream calls
                      | _ => ([], some .typeError)
                    else
                      match dictGet? deltaKvs (pys "content") with
                      | some cv =>
                          if pyTruthy cv then
                            ([⟨pys "assistant", pys "text", cv⟩], none)
                          else ([], none)
                      | none => ([], none)
                  streamLineOut dkvs step
              | _ => {err := some .typeError}
          | _ => {err := some .attrError}
      | _ => {err := some .typeError}
  | some _ => {err := some .attrError}

/-- The OpenAI SSE loop (`openai.py` lines 111-148): only `data: ` lines
are decoded, a `[DONE]` marker breaks out, and an uncaught exception stops
the iteration. -/
def openaiStream : List Str → GenOut
  | [] => {}
  | line :: rest =>
      if (pys "data: ").isPrefixOf line then
        let ds := line.drop 6
        if pyStrip ds = pys "[DONE]" then {}
        else (openaiStreamLine ds).seq (openaiStream rest)
      else openaiStream rest

/-- The `for call in msg["tool_calls"]` loop of the OpenAI *non-streaming*
path (`openai.py` lines 163-174): here a `json.loads` failure on the
argument text is NOT caught and terminates the generator. -/
def openaiCallsNonStream : List PyVal → List Message × Option PyErr
  | [] => ([], none)
  | call :: t =>
      match call with
      | .obj ckvs =>
          match dictGet? ckvs (pys "function") with
          | none => ([], some .keyError)
          | some (.obj fkvs) =>
              match dictGet? fkvs (pys "name") with
              | none => ([], some .keyError)
              | some nameV =>
                  match dictGetD fkvs (pys "arguments") (.str ['{', '}']) with
                  | .str s =>
                      match loads s with
                      | some parsed =>
                          let (ms, e) := openaiCallsNonStream t
                          (mkToolUseStr nameV parsed :: ms, e)
                      | none => ([], some .jsonDecode)
                  | _ => ([], some .typeError)
          | some _ => ([], some .typeError)
      | _ => ([], some .typeError)

/-- The OpenAI non-streaming path (`openai.py` lines 149-186): usage is
recorded first, then exactly one of the `tool_calls` / `function_call` /
truthy-`content` branches emits events. -/
def openaiNonStream (body : Str) : GenOut :=
  match loads body with
  | none => {err := some .jsonDecode}
  | some data =>
      let usageV := match data with
        | .obj dkvs => dictGetD dkvs (pys "usage") (.obj [])
        | _ => .obj []
      match usageOut usageV
          [pys "prompt_tokens", pys "prompt_token", pys "input_tokens"]
          [pys "completion_tokens", pys "output_tokens"] with
      | .error e => {err := some e}
      | .ok (pts, cts) =>
          let tail : List Message × Option PyErr :=
            match data with
            | .obj dkvs =>
                match dictGetD dkvs (pys "choices") (.arr [.obj []]) with
                | .arr [] => ([], some .indexError)
                | .arr (c0 :: _) =>
                    match c0 with
                    | .obj ckvs =>
                        match dictGetD ckvs (pys "message") (.obj []) with
                        | .obj msgKvs =>
                            if hasKey msgKvs (pys "tool_calls") then
                              match dictGetD msgKvs (pys "tool_calls") .null with
                              | .arr calls => openaiCallsNonStream calls
                              | _ => ([], some .typeError)
                            else if hasKey msgKvs (pys "function_call") then
                              match dictGetD msgKvs (pys "function_call") .null with
                              | .obj fkvs =>
                                  match dictGetD fkvs (pys "arguments") (.str ['{', '}']) with
                                  | .str s =>
                                      match loads s with
                                      | some parsed =>
                                          ([⟨pys "assistant", pys "tool_use",
                                             .obj [(pys "name", dictGetD fkvs (pys "name") .null),
                                                   (pys "arguments", parsed)]⟩], none)
                                      | none => ([], some .jsonDecode)
                                  | _ => ([], some .typeError)
                              | _ => ([], some .attrError)
                            else
                              let cv := dictGetD msgKvs (pys "content") .null
                              if pyTruthy cv then
                                ([⟨pys "assistant", pys "text", cv⟩], none)
                              else ([], none)
                        | _ => ([], some .typeError)
                    | _ => ([], some .attrError)
                | _ => ([], some .typeError)
            | _ => ([], some .attrError)
          {events := tail.1, ptoks := pts, ctoks := cts, err := tail.2}

/-- Decode one Claude SSE data payload (`claude.py` lines 122-155): at most
one text/thinking event, then (independently) a `tool_use` delta event
whose content is a dict carrying `name`, `arguments` and `call_id`, then
usage. -/
def claudeStreamLine (ds : Str) : GenOut :=
  match loads ds with
  | none => {}
  | some (.obj dkvs) =>
      match dictGetD dkvs (pys "delta") (.obj []) with
      | .obj deltaKvs =>
          let textMsgs : List Message :=
            if hasKey deltaKvs (pys "text") then
              [⟨pys "assistant", pys "text", dictGetD deltaKvs (pys "text") .null⟩]
            else if hasKey deltaKvs (pys "thinking") then
              [⟨pys "assistant", pys "thinking", dictGetD deltaKvs (pys "thinking") .null⟩]
            else []
          let toolStep : Except PyErr (List Message) :=
            if hasKey deltaKvs (pys "tool_use") then
              match dictGetD deltaKvs (pys "tool_use") .null with
              | .obj tkvs =>
                  .ok [⟨pys "assistant", pys "tool_use",
                        .obj [(pys "name", dictGetD tkvs (pys "name") .null),
                              (pys "arguments", dictGetD tkvs (pys "input") (.obj [])),
                              (pys "call_id", dictGetD tkvs (pys "id") .null)]⟩]
              | _ => .error .attrError
            else .ok []
          match toolStep with
          | .error e => streamLineOut dkvs (textMsgs, some e)
          | .ok toolMsgs => streamLineOut dkvs (textMsgs ++ toolMsgs, none)
      | _ => {err := some .typeError}
  | some _ => {err := some .attrError}

/-- The Claude SSE loop (`claude.py` lines 117-155). -/
def claudeStream : List Str → GenOut
  | [] => {}
  | line :: rest =>
      if (pys "data: ").isPrefixOf line then
        let ds := line.drop 6
        if pyStrip ds = pys "[DONE]" then {}
        else (claudeStreamLine ds).seq (claudeStream rest)
      else claudeStream rest

/-- Does this value compare equal (as a Python value) to the given string? -/
def pyEqStr (v : PyVal) (s : String) : Bool :=
  match v with
  | .str t => t = s.data
  | _ => false

/-- The `for blk in blocks` loop of the Claude non-streaming path
(`claude.py` lines 169-187). -/
def claudeBlocksOut : List PyVal → List Message × Option PyErr
  | [] => ([], none)
  | blk :: t =>
      match blk with
      | .obj bkvs =>
          let rest := claudeBlocksOut t
          let typeV := dictGetD bkvs (pys "type") .null
          if pyEqStr typeV "thinking" then
            (⟨pys "assistant", pys "thinking",
              pyOr (dictGetD bkvs (pys "thinking") .null)
                   (dictGetD bkvs (pys "text") (.str []))⟩ :: rest.1, rest.2)
          else if pyEqStr typeV "tool_use" then
            (⟨pys "assistant", pys "tool_use",
              .obj [(pys "name", dictGetD bkvs (pys "name") .null),
                    (pys "arguments", dictGetD bkvs (pys "input") (.obj [])),
                    (pys "call_id", dictGetD bkvs (pys "id") .null)]⟩ :: rest.1, rest.2)
          else if pyEqStr typeV "text" then
            (⟨pys "assistant", pys "text",
              dictGetD bkvs (pys "text") (.str [])⟩ :: rest.1, rest.2)
          else rest
      | _ => ([], some .attrError)

/-- The Claude non-streaming path (`claude.py` lines 156-187). -/
def claudeNonStream (body : Str) : GenOut :=
  match loads body with
  | none => {err := some .jsonDecode}
  | some data =>
      let usageV := match data with
        | .obj dkvs => dictGetD dkvs (pys "usage") (.obj [])
        | _ => .obj []
      match usageOut usageV
          [pys "prompt_tokens", pys "prompt_token", pys "input_tokens"]
          [pys "completion_tokens", pys "output_tokens"] with
      | .error e => {err := some e}
      | .ok (pts, cts) =>
          let blocksV := match data with
            | .obj dkvs => dictGetD dkvs (pys "content") (.arr [])
            | _ => .arr []
          let tail : List Message × Option PyErr :=
            match blocksV with
            | .arr bs => claudeBlocksOut bs
            | _ => ([], some .typeError)
          {events := tail.1, ptoks := pts, ctoks := cts, err := tail.2}

/-- The response half of `OpenAIClient._run` (`openai.py` lines 104-187):
a non-200 status yields exactly one terminal error event carrying the raw
body and returns; otherwise the streaming or non-streaming decoder runs. -/
def openaiRespond (stream : Bool) (resp : Response) : GenOut :=
  if resp.status ≠ 200 then
    {events := [⟨pys "assistant", pys "error", .str resp.text⟩]}
  else if stream then openaiStream resp.lines
  else openaiNonStream resp.text

/-- The response half of `ClaudeClient._run` (`claude.py` lines 110-187). -/
def claudeRespond (stream : Bool) (resp : Response) : GenOut :=
  if resp.status ≠ 200 then
    {events := [⟨pys "assistant", pys "error", .str resp.text⟩]}
  else if stream then claudeStream resp.lines
  else claudeNonStream resp.text

/-- `OpenAIClient._run` as a whole, against a fixed response: payload
translation, POST (the response is the given fixture), decode. -/
def openaiRun (cfg : ModelConfig) (p : RunParams) (resp : Response) : GenOut :=
  match openaiPayload cfg p with
  | .error e => {err := some e}
  | .ok _ => openaiRespond p.stream resp

/-- `ClaudeClient._run` as a whole, against a fixed response. -/
def claudeRun (cfg : ModelConfig) (p : RunParams) (resp : Response) : GenOut :=
  match claudePayload cfg p with
  | .error e => {err := some e}
  | .ok _ => claudeRespond p.stream resp

/-- `sys.maxsize`, tenacity's default upper bound for
`wait_exponential_jitter`. -/
def maxWaitDefault : ℚ := (2 : ℚ) ^ 63 - 1

/-- The sleep tenacity inserts before retry number `n + 1` under
`wait_exponential_jitter()` with its defaults `initial=1`, `exp_base=2`,
`jitter=1`: `min(initial * exp_base^(n-1), max) + uniform(0, jitter)`.
The random draw is supplied as the oracle `jitter`. -/
def expJitterWait (jitter : Nat → ℚ) (n : Nat) : ℚ :=
  min ((2 : ℚ) ^ (n - 1)) maxWaitDefault + jitter n

/-- What the decorated `ModelClient.run` delivers overall: the output of
the attempt whose result stands, how many attempts ran, and the waits slept
between attempts. -/
structure RetryOutcome where
  out : GenOut
  attempts : Nat
  waits : List ℚ

/-- tenacity's synchronous retry loop (`Retrying.__call__`) as configured
by `@retry(wait=wait_exponential_jitter(), stop=stop_after_attempt(3))` on
`ModelClient.run` (`base.py` line 259): attempt `n` (1-based) CALLS the
wrapped function; a call that raises is retried after `expJitterWait`
until `stop_after_attempt(3)` halts, after which the exception propagates;
a call that returns ends the loop, and what it returned — here an async
generator object — is handed to the caller, whose iteration of it
(delivering the adapter's events and propagating any iteration exception)
happens entirely outside this loop. -/
def tenacityLoop (jitter : Nat → ℚ) (call : Nat → Except PyErr GenOut) :
    Nat → Nat → List ℚ → RetryOutcome
  | 0, n, ws =>
      match call n with
      | .ok g => ⟨g, n, ws.reverse⟩
      | .error e => ⟨{err := some e}, n, ws.reverse⟩
  | fuel + 1, n, ws =>
      match call n with
      | .ok g => ⟨g, n, ws.reverse⟩
      | .error e =>
          if 3 ≤ n then ⟨{err := some e}, n, ws.reverse⟩
          else tenacityLoop jitter call fuel (n + 1) (expJitterWait jitter n :: ws)

/-- `ModelClient.run` (`base.py` lines 259-318) as actually decorated:
`run` is an async *generator* function (it yields at line 309), for which
`inspect.iscoroutinefunction` is false, so tenacity dispatches to its
synchronous retry path.  Each "attempt" merely calls the function, i.e.
constructs the generator object without running any body code — that can
never raise, so the call outcome is `.ok` carrying the generator whose
iteration delivers the adapter's `GenOut` (the instrumentation body
re-yields `_run`'s messages unchanged), uncaught iteration exceptions
included and unretried. -/
def ModelClient.run (jitter : Nat → ℚ) (att : Nat → GenOut) : RetryOutcome :=
  tenacityLoop jitter (fun n => .ok (att n)) 3 1 []

/-! ## Concrete scenario inputs -/

/-- The canonical request of the C1 scenario: one user text message "hi",
`stream=False`. -/
def reqHi : RunParams :=
  {messages := [⟨pys "user", pys "text", .str (pys "hi")⟩], stream := false}

/-- The OpenAI-style non-streaming fixture
`{"choices": [{"message": {"content": "Hello"}}]}`. -/
def oaHelloFixture : PyVal :=
  .obj [(pys "choices",
         .arr [.obj [(pys "message", .obj [(pys "content", .str (pys "Hello"))])]])]

/-- The Anthropic-style non-streaming fixture
`{"content": [{"type": "text", "text": "Hello"}]}`. -/
def claudeHelloFixture : PyVal :=
  .obj [(pys "content",
         .arr [.obj [(pys "type", .str (pys "text")),
                     (pys "text", .str (pys "Hello"))]])]

/-! ## Claims -/

/-- C1: for the non-streaming request `[{role:user, kind:text,
content:"hi"}]` with `stream=false`, the OpenAI-style adapter on fixture
`{"choices":[{"message":{"content":"Hello"}}]}` and the Anthropic-style
adapter on fixture `{"content":[{"type":"text","text":"Hello"}]}` each
emit exactly one event, and both events are the identical canonical
message {role: assistant, kind: text, content: "Hello"}. -/
theorem C1_nonstreaming_adapter_parity :
    openaiRun ⟨pys "openai", pys "gpt-4"⟩ reqHi ⟨200, dumps oaHelloFixture, []⟩ =
      {events := [⟨pys "assistant", pys "text", .str (pys "Hello")⟩]} ∧
    claudeRun ⟨pys "claude", pys "claude-3"⟩ reqHi ⟨200, dumps claudeHelloFixture, []⟩ =
      {events := [⟨pys "assistant", pys "text", .str (pys "Hello")⟩]} := by
  exact ⟨rfl, rfl⟩

/-- C2: for every vendor HTTP response with status ≥ 400, each adapter's
run emits exactly one terminal error event whose content is the raw
response body and the stream then ends normally (`err = none`); because no
exception is raised, the retry wrapper delivers this on the first attempt
without retrying. -/
theorem C2_http_error_is_event_not_exception (stream : Bool) (resp : Response)
    (j : Nat → ℚ) (h : 400 ≤ resp.status) :
    openaiRespond stream resp =
      {events := [⟨pys "assistant", pys "error", .str resp.text⟩]} ∧
    claudeRespond stream resp =
      {events := [⟨pys "assistant", pys "error", .str resp.text⟩]} ∧
    ModelClient.run j (fun _ => openaiRespond stream resp) =
      ⟨{events := [⟨pys "assistant", pys "error", .str resp.text⟩]}, 1, []⟩ := by
  have hne : resp.status ≠ 200 := by omega
  have h1 : openaiRespond stream resp =
      {events := [⟨pys "assistant", pys "error", .str resp.text⟩]} := by
    simp [openaiRespond, hne]
  have h2 : claudeRespond stream resp =
      {events := [⟨pys "assistant", pys "error", .str resp.text⟩]} := by
    simp [claudeRespond, hne]
  refine ⟨h1, h2, ?_⟩
  simp [ModelClient.run, tenacityLoop, h1]

/-- Witness for C2 at a concrete 500 response. -/
theorem C2_http_error_is_event_not_exception_witness :
    400 ≤ (500 : Nat) ∧
    openaiRespond false ⟨500, pys "boom", []⟩ =
      {events := [⟨pys "assistant", pys "error", .str (pys "boom")⟩]} :=
  ⟨by decide,
   (C2_http_error_is_event_not_exception false ⟨500, pys "boom", []⟩
     (fun _ => 0) (by decide)).1⟩

/-- C9: every response whose status is not exactly 200 — including
successful 2xx codes such as 201 — yields the single terminal error event
and ends the stream, for both adapters; a 200 status is the only one that
reaches the body decoders. -/
theorem C9_only_exact_200_decodes (stream : Bool) (resp : Response)
    (h : resp.status ≠ 200) :
    openaiRespond stream resp =
      {events := [⟨pys "assistant", pys "error", .str resp.text⟩]} ∧
    claudeRespond stream resp =
      {events := [⟨pys "assistant", pys "error", .str resp.text⟩]} := by
  constructor
  · simp [openaiRespond, h]
  · simp [claudeRespond, h]

/-- Witness for C9 at a *successful* 201 response. -/
theorem C9_only_exact_200_decodes_witness :
    (201 : Nat) ≠ 200 ∧
    openaiRespond false ⟨201, pys "created", []⟩ =
      {events := [⟨pys "assistant", pys "error", .str (pys "created")⟩]} :=
  ⟨by decide,
   (C9_only_exact_200_decodes false ⟨201, pys "created", []⟩ (by decide)).1⟩

/-- C3 (code bug): the retry decoration on `ModelClient.run` is inert.
`run` is an async generator function, so tenacity's synchronous path only
guards the call that constructs the generator — which cannot raise — and a
transport exception raised while iterating attempt 1's response propagates
to the caller immediately: exactly 1 attempt, no backoff sleeps, not the
3 attempts with exponential backoff the spec describes. -/
theorem C3_retry_decoration_inert (j : Nat → ℚ) (att : Nat → GenOut)
    (e : PyErr) (hfail : (att 1).err = some e) :
    ModelClient.run j att = ⟨att 1, 1, []⟩ ∧
    (ModelClient.run j att).out.err = some e ∧
    (ModelClient.run j att).attempts = 1 ∧
    (ModelClient.run j att).waits = [] := by
  have hrun : ModelClient.run j att = ⟨att 1, 1, []⟩ := by
    simp [ModelClient.run, tenacityLoop]
  exact ⟨hrun, by rw [hrun]; exact hfail, by rw [hrun], by rw [hrun]⟩

/-- Witness for C3: a call whose iteration raises `attrError` is delivered
after exactly one attempt, exception and all, with no waits. -/
theorem C3_retry_decoration_inert_witness :
    ModelClient.run (fun _ => 0) (fun _ => ⟨[], [], [], some .attrError⟩) =
      ⟨⟨[], [], [], some .attrError⟩, 1, []⟩ :=
  (C3_retry_decoration_inert (fun _ => 0)
    (fun _ => ⟨[], [], [], some .attrError⟩) .attrError rfl).1

/-! ## Dictionary lemmas -/

theorem dictGet?_dictSet_self (d : Dict) (k : Str) (v : PyVal) :
    dictGet? (dictSet d k v) k = some v := by
  induction d with
  | nil => simp [dictSet, dictGet?, List.find?]
  | cons kv t ih =>
      by_cases h : kv.1 = k
      · simp [dictSet, h, dictGet?, List.find?]
      · simpa [dictSet, h, dictGet?, List.find?] using ih

theorem dictGet?_dictSet_ne (d : Dict) (k k' : Str) (v : PyVal) (h : k' ≠ k) :
    dictGet? (dictSet d k' v) k = dictGet? d k := by
  induction d with
  | nil => simp [dictSet, dictGet?, List.find?, h]
  | cons kv t ih =>
      by_cases hk : kv.1 = k'
      · simp [dictSet, hk, dictGet?, List.find?, h]
      · by_cases hkk : kv.1 = k
        · simp [dictSet, hk, dictGet?, List.find?, hkk, Ne.symm h]
        · simpa [dictSet, hk, dictGet?, List.find?, hkk] using ih

theorem dictGet?_dictUpdate_notmem (e : Dict) :
    ∀ (d : Dict) (k : Str), hasKey e k = false →
      dictGet? (dictUpdate d e) k = dictGet? d k := by
  induction e with
  | nil => intro d k _; simp [dictUpdate]
  | cons kv t ih =>
      intro d k h
      simp [hasKey] at h
      rw [dictUpdate, ih _ _ (by simpa [hasKey] using h.2),
        dictGet?_dictSet_ne _ _ _ _ h.1]

theorem dictGet?_dictUpdate_mem (e : Dict) :
    ∀ (d : Dict) (k : Str) (v : PyVal), (e.map Prod.fst).Nodup →
      dictGet? e k = some v → dictGet? (dictUpdate d e) k = some v := by
  induction e with
  | nil => intro d k v _ hv; simp [dictGet?, List.find?] at hv
  | cons kv t ih =>
      intro d k v hnd hv
      by_cases h : kv.1 = k
      · have hv2 : kv.2 = v := by
          simpa [dictGet?, List.find?, h] using hv
        have hmem : k ∉ t.map Prod.fst :=
          h ▸ (List.nodup_cons.mp (by simpa using hnd)).1
        have hk : hasKey t k = false := by
          rw [Bool.eq_false_iff]
          intro htrue
          rcases List.any_eq_true.mp htrue with ⟨x, hx, hxk⟩
          exact hmem ((decide_eq_true_eq.mp hxk) ▸ List.mem_map_of_mem Prod.fst hx)
        rw [dictUpdate, dictGet?_dictUpdate_notmem _ _ _ hk, ← h, ← hv2,
          dictGet?_dictSet_self]
      · have hv' : dictGet? t k = some v := by
          simpa [dictGet?, List.find?, h] using hv
        rw [dictUpdate]
        exact ih _ _ _ (List.nodup_cons.mp (by simpa using hnd)).2 hv'

/-- C8: provider-specific `extra_params` are merged into the wire payload
last: whenever the translation succeeds, every key of `extra_params` maps
in the outgoing payload to its `extra_params` value, even when the adapter
had already computed that key — for both adapters. -/
theorem C8_extra_params_merged_last (cfgO cfgC : ModelConfig) (p : RunParams)
    (k : Str) (v : PyVal) (d d' : Dict)
    (hnd : (p.extra_params.map Prod.fst).Nodup)
    (hv : dictGet? p.extra_params k = some v)
    (ho : openaiPayload cfgO p = .ok d)
    (hc : claudePayload cfgC p = .ok d') :
    dictGet? d k = some v ∧ dictGet? d' k = some v := by
  constructor
  · rcases hmsgs : openaiMessages p.messages with e | msgs
    · rw [openaiPayload, hmsgs] at ho; cases ho
    · rw [openaiPayload, hmsgs] at ho
      simp only [Except.ok.injEq] at ho
      rw [← ho]
      exact dictGet?_dictUpdate_mem _ _ _ _ hnd hv
  · rcases hmsgs : claudeMessages p.messages with e | msgs
    · rw [claudePayload, hmsgs] at hc; cases hc
    · rw [claudePayload, hmsgs] at hc
      simp only [Except.ok.injEq] at hc
      rw [← hc]
      exact dictGet?_dictUpdate_mem _ _ _ _ hnd hv

/-- The concrete request of the C8 witness: the adapter computes
`temperature = 0` but `extra_params` overrides it to `7`. -/
def reqOverride : RunParams :=
  {messages := [⟨pys "user", pys "text", .str (pys "hi")⟩],
   temperature := some (.num 0), stream := false,
   extra_params := [(pys "temperature", .num 7)]}

/-- The OpenAI payload of the C8 witness request. -/
def oaOverridePayload : Dict :=
  match openaiPayload ⟨pys "openai", pys "gpt-4"⟩ reqOverride with
  | .ok d => d
  | .error _ => []

/-- The Claude payload of the C8 witness request. -/
def claudeOverridePayload : Dict :=
  match claudePayload ⟨pys "claude", pys "claude-3"⟩ reqOverride with
  | .ok d => d
  | .error _ => []

/-- Witness for C8: the override request's payloads map `temperature` to
the `extra_params` value `7`, not the computed `0`. -/
theorem C8_extra_params_merged_last_witness :
    dictGet? oaOverridePayload (pys "temperature") = some (.num 7) ∧
    dictGet? claudeOverridePayload (pys "temperature") = some (.num 7) :=
  C8_extra_params_merged_last ⟨pys "openai", pys "gpt-4"⟩
    ⟨pys "claude", pys "claude-3"⟩ reqOverride
    (pys "temperature") (.num 7) oaOverridePayload claudeOverridePayload
    (by simp [reqOverride]) rfl rfl rfl

/-! ## C6: tool-choice mapping -/

/-- A canonical tool-bearing request: one user text message, the given
tools and invocation policy, `stream=False`. -/
def mkToolReq (tools : List SpecOrDict) (choice : ChoiceVal) (ft : Option Str) :
    RunParams :=
  {messages := [⟨pys "user", pys "text", .str (pys "hi")⟩],
   tool_params := some (.params {tools := tools, choice := choice, force_tool := ft}),
   stream := false}

/-- `tool_choice` of a built payload (`none` both when the field is absent
and when the build failed). -/
def payloadChoice (e : Except PyErr Dict) : Option PyVal :=
  match e with
  | .ok d => dictGet? d (pys "tool_choice")
  | .error _ => none

/-- The `get_time` tool of the spec's forced-call scenario. -/
def getTimeTool : ToolSpec :=
  ⟨pys "get_time", pys "Get the current time",
   .obj [(pys "type", .str (pys "object")),
         (pys "properties", .obj []), (pys "required", .arr [])]⟩

/-- The request forcing the named tool `get_time`
(`choice = ToolChoice.FORCE`, `force_tool = "get_time"`). -/
def reqForceGetTime : RunParams :=
  mkToolReq [.spec getTimeTool] (.enum .force) (some (pys "get_time"))

/-- The request disabling tool use (`choice = ToolChoice.BLOCK`). -/
def reqBlockTools : RunParams :=
  mkToolReq [.spec getTimeTool] (.enum .block) none

/-- Counterexample to C6: forcing the named tool `get_time` does NOT
produce a name-qualified forced-call object — the OpenAI payload carries
the literal string `"force"` (no tool name anywhere in the field) and the
Claude payload omits `tool_choice` entirely; likewise `none` does not map
to a disable spelling on Claude (the field is simply absent). -/
theorem C6_counterexample :
    payloadChoice (openaiPayload ⟨pys "openai", pys "gpt-4"⟩ reqForceGetTime) =
      some (.str (pys "force")) ∧
    payloadChoice (claudePayload ⟨pys "claude", pys "claude-3"⟩ reqForceGetTime) =
      none ∧
    payloadChoice (claudePayload ⟨pys "claude", pys "claude-3"⟩ reqBlockTools) =
      none :=
  ⟨rfl, rfl, rfl⟩

/-- C6 as amended: the OpenAI adapter maps `auto` → omitted, `none` →
`"none"`, `required` → `"required"` and `force` → the literal string
`"force"` (never a name-qualified object; `force_tool` is ignored); the
Claude adapter sets `tool_choice` only for `required` (to
`{"type":"any"}`) and omits it for every other policy. -/
theorem C6_tool_choice_mapping (cfgO cfgC : ModelConfig)
    (tools : List SpecOrDict) (ft : Option Str) (c : ToolChoice) :
    payloadChoice (openaiPayload cfgO (mkToolReq tools (.enum c) ft)) =
      (match c with
       | .auto => none
       | .block => some (.str (pys "none"))
       | .required => some (.str (pys "required"))
       | .force => some (.str (pys "force"))) ∧
    payloadChoice (claudePayload cfgC (mkToolReq tools (.enum c) ft)) =
      (match c with
       | .required => some (.obj [(pys "type", .str (pys "any"))])
       | _ => none) := by
  cases c <;> exact ⟨rfl, rfl⟩

/-! ## C4/C5: streamed tool-call fragments -/

/-- An OpenAI streamed chunk whose delta carries one tool-call fragment
with the given `function` dict. -/
def oaFragLine (funcKvs : Dict) : PyVal :=
  .obj [(pys "choices",
         .arr [.obj [(pys "delta",
                      .obj [(pys "tool_calls",
                             .arr [.obj [(pys "function", .obj funcKvs)]])])]])]

/-- An OpenAI non-streaming body whose message carries one tool call with
the given `function` dict. -/
def oaNSBody (funcKvs : Dict) : PyVal :=
  .obj [(pys "choices",
         .arr [.obj [(pys "message",
                      .obj [(pys "tool_calls",
                             .arr [.obj [(pys "function", .obj funcKvs)]])])]])]

/-- First fragment of a split tool call: index 0, id, the name, and the
opening half `{"a"` of the argument JSON. -/
def splitFrag1 : PyVal :=
  .obj [(pys "choices",
         .arr [.obj [(pys "delta",
                      .obj [(pys "tool_calls",
                             .arr [.obj [(pys "index", .num 0),
                                         (pys "id", .str (pys "call_1")),
                                         (pys "function",
                                          .obj [(pys "name", .str (pys "get_time")),
                                                (pys "arguments", .str (pys "\x7b\"a\""))])]])])]])]

/-- Second fragment of the same call (same index, no name): the closing
half `: 1}` of the argument JSON. -/
def splitFrag2 : PyVal :=
  .obj [(pys "choices",
         .arr [.obj [(pys "delta",
                      .obj [(pys "tool_calls",
                             .arr [.obj [(pys "index", .num 0),
                                         (pys "function",
                                          .obj [(pys "arguments", .str (pys ": 1\x7d"))])]])])]])]

/-- One Claude `tool_use` delta chunk carrying the shared id `toolu_1`. -/
def claudeToolDelta : PyVal :=
  .obj [(pys "delta",
         .obj [(pys "tool_use",
                .obj [(pys "id", .str (pys "toolu_1")),
                      (pys "name", .str (pys "get_time")),
                      (pys "input", .obj [(pys "a", .num 1)])])])]

set_option maxRecDepth 16384 in
/-- Counterexample to C4: a tool call split across two fragments sharing
index 0 (arguments `{"a"` then `: 1}`) yields ZERO events from the OpenAI
adapter — the first fragment's argument text fails to parse on its own so
its line is skipped, and the nameless second fragment is ignored; and two
Claude `tool_use` deltas sharing one id yield TWO events, not one merged
event. -/
theorem C4_counterexample :
    openaiStream [pys "data: " ++ dumps splitFrag1,
                  pys "data: " ++ dumps splitFrag2,
                  pys "data: [DONE]"] = {} ∧
    (claudeStream [pys "data: " ++ dumps claudeToolDelta,
                   pys "data: " ++ dumps claudeToolDelta]).events.length = 2 :=
  ⟨rfl, rfl⟩

/-- C4 as amended: no cross-fragment assembly exists.  Each streamed line
is decoded independently and its events concatenated (part 3); within a
line, a fragment yields one `tool_use` event exactly when it carries a
truthy name and its OWN argument text parses as JSON (part 1), and a
fragment without a name yields nothing (part 2) — so a call split across
fragments is never reassembled. -/
theorem C4_no_fragment_merging
    (ds ds' : Str) (nameV v : PyVal) (s s' : Str) (line : Str) (rest : List Str)
    (hds : loads ds = some (oaFragLine [(pys "name", nameV), (pys "arguments", .str s)]))
    (hname : pyTruthy nameV = true)
    (hjson : loads s = some v)
    (hds' : loads ds' = some (oaFragLine [(pys "arguments", .str s')]))
    (hpre : (pys "data: ").isPrefixOf line = true)
    (hnd : pyStrip (line.drop 6) ≠ pys "[DONE]") :
    openaiStreamLine ds = {events := [mkToolUseStr nameV v]} ∧
    openaiStreamLine ds' = {} ∧
    openaiStream (line :: rest) =
      (openaiStreamLine (line.drop 6)).seq (openaiStream rest) := by
  refine ⟨?_, ?_, ?_⟩
  · unfold openaiStreamLine
    rw [hds]
    simp +decide [oaFragLine, dictGetD, dictGet?, List.find?, hasKey,
      openaiCallsStream, hname, hjson, usageOut, streamLineOut]
  · unfold openaiStreamLine
    rw [hds']
    simp +decide [oaFragLine, dictGetD, dictGet?, List.find?, hasKey,
      openaiCallsStream, usageOut, pyTruthy, streamLineOut]
  · simp only [openaiStream]
    rw [if_pos hpre, if_neg hnd]

/-- Witness for C4's amended statement at concrete fragments. -/
theorem C4_no_fragment_merging_witness :
    openaiStreamLine (dumps (oaFragLine [(pys "name", .str (pys "get_time")),
                                         (pys "arguments", .str (pys "\x7b\"a\": 1\x7d"))])) =
      {events := [mkToolUseStr (.str (pys "get_time")) (.obj [(pys "a", .num 1)])]} ∧
    openaiStreamLine (dumps (oaFragLine [(pys "arguments", .str (pys ": 1\x7d"))])) = {} ∧
    openaiStream (pys "data: x" :: []) =
      (openaiStreamLine ((pys "data: x").drop 6)).seq (openaiStream []) :=
  C4_no_fragment_merging
    (dumps (oaFragLine [(pys "name", .str (pys "get_time")),
                        (pys "arguments", .str (pys "\x7b\"a\": 1\x7d"))]))
    (dumps (oaFragLine [(pys "arguments", .str (pys ": 1\x7d"))]))
    (.str (pys "get_time")) (.obj [(pys "a", .num 1)])
    (pys "\x7b\"a\": 1\x7d") (pys ": 1\x7d") (pys "data: x") []
    rfl rfl rfl rfl rfl (by decide)

/-- The default argument text `"{}"` parses to the empty object. -/
theorem loads_braces : loads ['{', '}'] = some (.obj []) := rfl

/-- A complete tool call whose argument text `oops` is not valid JSON. -/
def badArgsFunc : Dict :=
  [(pys "name", .str (pys "get_time")), (pys "arguments", .str (pys "oops"))]

set_option maxRecDepth 16384 in
/-- Counterexample to C5: a tool call whose argument text is not valid
JSON is NOT emitted with empty arguments — the non-streaming path raises
`json.JSONDecodeError` (zero events, uncaught exception) and the streaming
path skips the line, dropping the call (zero events). -/
theorem C5_counterexample :
    openaiNonStream (dumps (oaNSBody badArgsFunc)) =
      {err := some .jsonDecode} ∧
    openaiStream [pys "data: " ++ dumps (oaFragLine badArgsFunc),
                  pys "data: [DONE]"] = {} :=
  ⟨rfl, rfl⟩

/-- C5 as amended: the empty-object default applies only when the
`arguments` key is ABSENT — then both paths emit the call with arguments
`{}` (parts 1 and 2).  When argument text is present but not valid JSON,
the streaming path skips the rest of its line, dropping the call (part 3),
and the non-streaming path raises the decode error (part 4); neither path
emits the call with empty arguments. -/
theorem C5_invalid_arguments_behavior
    (ds body ds' body' : Str) (nameV nameV' : PyVal) (s s' : Str)
    (h1 : loads ds = some (oaFragLine [(pys "name", nameV)]))
    (hname : pyTruthy nameV = true)
    (h2 : loads body = some (oaNSBody [(pys "name", nameV)]))
    (h3 : loads ds' = some (oaFragLine [(pys "name", nameV'), (pys "arguments", .str s)]))
    (hname' : pyTruthy nameV' = true)
    (hbad : loads s = none)
    (h4 : loads body' = some (oaNSBody [(pys "name", nameV'), (pys "arguments", .str s')]))
    (hbad' : loads s' = none) :
    openaiStreamLine ds = {events := [mkToolUseStr nameV (.obj [])]} ∧
    openaiNonStream body = {events := [mkToolUseStr nameV (.obj [])]} ∧
    openaiStreamLine ds' = {} ∧
    openaiNonStream body' = {err := some .jsonDecode} := by
  refine ⟨?_, ?_, ?_, ?_⟩
  · unfold openaiStreamLine
    rw [h1]
    simp +decide [oaFragLine, dictGetD, dictGet?, List.find?, hasKey,
      openaiCallsStream, hname, usageOut, loads_braces, streamLineOut]
  · unfold openaiNonStream
    rw [h2]
    simp +decide [oaNSBody, dictGetD, dictGet?, List.find?, hasKey,
      openaiCallsNonStream, usageOut, loads_braces]
  · unfold openaiStreamLine
    rw [h3]
    simp +decide [oaFragLine, dictGetD, dictGet?, List.find?, hasKey,
      openaiCallsStream, hname', hbad, usageOut, streamLineOut]
  · unfold openaiNonStream
    rw [h4]
    simp +decide [oaNSBody, dictGetD, dictGet?, List.find?, hasKey,
      openaiCallsNonStream, hbad', usageOut]

/-- Witness for C5's amended statement at concrete calls. -/
theorem C5_invalid_arguments_behavior_witness :
    openaiStreamLine (dumps (oaFragLine [(pys "name", .str (pys "f"))])) =
      {events := [mkToolUseStr (.str (pys "f")) (.obj [])]} ∧
    openaiNonStream (dumps (oaNSBody [(pys "name", .str (pys "f"))])) =
      {events := [mkToolUseStr (.str (pys "f")) (.obj [])]} ∧
    openaiStreamLine (dumps (oaFragLine [(pys "name", .str (pys "f")),
                                         (pys "arguments", .str (pys "oops"))])) = {} ∧
    openaiNonStream (dumps (oaNSBody [(pys "name", .str (pys "f")),
                                      (pys "arguments", .str (pys "oops"))])) =
      {err := some .jsonDecode} :=
  C5_invalid_arguments_behavior
    (dumps (oaFragLine [(pys "name", .str (pys "f"))]))
    (dumps (oaNSBody [(pys "name", .str (pys "f"))]))
    (dumps (oaFragLine [(pys "name", .str (pys "f")), (pys "arguments", .str (pys "oops"))]))
    (dumps (oaNSBody [(pys "name", .str (pys "f")), (pys "arguments", .str (pys "oops"))]))
    (.str (pys "f")) (.str (pys "f")) (pys "oops") (pys "oops")
    rfl rfl rfl rfl rfl rfl rfl rfl

/-- An OpenAI non-streaming body whose single choice's message is the
given dict. -/
def mkOABody (msgKvs : Dict) : PyVal :=
  .obj [(pys "choices", .arr [.obj [(pys "message", .obj msgKvs)]])]

/-- C10: a non-streaming OpenAI 200 response whose message has no
`tool_calls` and no `function_call` and whose content is falsy (empty
string, null, or absent) emits zero events and ends cleanly — no text
event is produced for it. -/
theorem C10_falsy_content_emits_nothing (body body0 : Str) (cv : PyVal)
    (h1 : loads body = some (mkOABody [(pys "content", cv)]))
    (hc : pyTruthy cv = false)
    (h0 : loads body0 = some (mkOABody [])) :
    openaiNonStream body = {} ∧ openaiNonStream body0 = {} := by
  constructor
  · unfold openaiNonStream
    rw [h1]
    simp +decide [mkOABody, dictGetD, dictGet?, List.find?, hasKey, usageOut, hc]
  · unfold openaiNonStream
    rw [h0]
    simp +decide [mkOABody, dictGetD, dictGet?, List.find?, hasKey, usageOut]

/-- Witness for C10: the empty-string-content and the empty-message
fixtures each produce zero events. -/
theorem C10_falsy_content_emits_nothing_witness :
    openaiNonStream (dumps (mkOABody [(pys "content", .str [])])) = {} ∧
    openaiNonStream (dumps (mkOABody [])) = {} :=
  C10_falsy_content_emits_nothing
    (dumps (mkOABody [(pys "content", .str [])]))
    (dumps (mkOABody [])) (.str []) rfl rfl rfl

/-! ## C7: call-id presence in finalized tool events -/

/-- Shape of every OpenAI-emitted `tool_use` content: `name` and
`arguments` only (serialized in the `tool_calls` branches, a plain dict in
the `function_call` branch) — never a `call_id`. -/
def oaToolShape (m : Message) : Prop :=
  ∃ nv av,
    m.content = .str (dumps (.obj [(pys "name", nv), (pys "arguments", av)])) ∨
    m.content = .obj [(pys "name", nv), (pys "arguments", av)]

/-- Shape of every Claude-emitted `tool_use` content: a dict that always
carries a `call_id` key (whose value is the wire block's id, possibly
null). -/
def claudeToolShape (m : Message) : Prop :=
  ∃ nv av idv,
    m.content = .obj [(pys "name", nv), (pys "arguments", av), (pys "call_id", idv)]

theorem openaiCallsStream_shape (calls : List PyVal) :
    ∀ m ∈ (openaiCallsStream calls).1, oaToolShape m := by
  induction calls with
  | nil => simp [openaiCallsStream]
  | cons c t ih =>
      intro m hm
      unfold openaiCallsStream at hm
      rcases c with _ | b | n | s | xs | ckvs <;> try simp_all
      rcases hfv : dictGetD ckvs (pys "function") (.obj [])
          with _ | _ | _ | _ | _ | fkvs <;> rw [hfv] at hm <;> try simp_all
      by_cases hname : pyTruthy (dictGetD fkvs (pys "name") .null) = true
      · simp only [hname, if_true] at hm
        rcases hargs : dictGetD fkvs (pys "arguments") (.str ['{', '}'])
            with _ | _ | _ | s | _ | _ <;> rw [hargs] at hm <;> try simp_all
        rcases hl : loads s with _ | parsed <;> rw [hl] at hm <;> try simp_all
        rcases hm with rfl | hm
        · exact ⟨_, _, Or.inl rfl⟩
        · exact ih _ hm
      · simp only [hname, if_false, Bool.false_eq_true] at hm
        exact ih _ hm

theorem openaiCallsNonStream_shape (calls : List PyVal) :
    ∀ m ∈ (openaiCallsNonStream calls).1, oaToolShape m := by
  induction calls with
  | nil => simp [openaiCallsNonStream]
  | cons c t ih =>
      intro m hm
      unfold openaiCallsNonStream at hm
      rcases c with _ | b | n | s | xs | ckvs <;> try simp_all
      rcases hfv : dictGet? ckvs (pys "function")
          with _ | fv <;> rw [hfv] at hm <;> try simp_all
      rcases fv with _ | _ | _ | _ | _ | fkvs <;> try simp_all
      rcases hnv : dictGet? fkvs (pys "name")
          with _ | nv <;> rw [hnv] at hm <;> try simp_all
      rcases hargs : dictGetD fkvs (pys "arguments") (.str ['{', '}'])
          with _ | _ | _ | s | _ | _ <;> rw [hargs] at hm <;> try simp_all
      rcases hl : loads s with _ | parsed <;> rw [hl] at hm <;> try simp_all
      rcases hm with rfl | hm
      · exact ⟨_, _, Or.inl rfl⟩
      · exact ih _ hm

theorem streamLineOut_events (dkvs : Dict) (pr : List Message × Option PyErr) :
    (streamLineOut dkvs pr).events = pr.1 := by
  rcases pr with ⟨msgs, e⟩
  unfold streamLineOut
  repeat' split
  all_goals simp_all

theorem text_ne_tool_use : pys "text" ≠ pys "tool_use" := by decide

theorem thinking_ne_tool_use : pys "thinking" ≠ pys "tool_use" := by decide

theorem error_ne_tool_use : pys "error" ≠ pys "tool_use" := by decide

theorem GenOut.mem_seq (a b : GenOut) (m : Message)
    (h : m ∈ (a.seq b).events) : m ∈ a.events ∨ m ∈ b.events := by
  unfold GenOut.seq at h
  rcases ha : a.err with _ | e <;> rw [ha] at h
  · simpa using List.mem_append.mp h
  · exact Or.inl h

theorem openaiStreamLine_shape (ds : Str) :
    ∀ m ∈ (openaiStreamLine ds).events, m.kind = pys "tool_use" → oaToolShape m := by
  intro m hm hk
  unfold openaiStreamLine at hm
  rcases hl : loads ds with _ | data <;> rw [hl] at hm
  · simp_all
  rcases data with _ | _ | _ | _ | _ | dkvs <;> try simp_all
  rcases hch : dictGetD dkvs (pys "choices") (.arr [.obj []])
      with _ | _ | _ | _ | xs | _ <;> rw [hch] at hm <;> try simp_all
  rcases xs with _ | ⟨c0, xrest⟩
  · simp_all
  rcases c0 with _ | _ | _ | _ | _ | ckvs <;> try simp_all
  rcases hdelta : dictGetD ckvs (pys "delta") (.obj [])
      with _ | _ | _ | _ | _ | deltaKvs <;> rw [hdelta] at hm <;> try simp_all
  rw [streamLineOut_events] at hm
  by_cases htc : hasKey deltaKvs (pys "tool_calls") = true
  · simp only [htc, if_true] at hm
    rcases htcv : dictGetD deltaKvs (pys "tool_calls") .null
        with _ | _ | _ | _ | calls | _ <;> rw [htcv] at hm <;> try simp_all
    exact openaiCallsStream_shape calls m hm
  · simp only [htc, Bool.false_eq_true, if_false] at hm
    rcases hcv : dictGet? deltaKvs (pys "content") with _ | cv <;> rw [hcv] at hm
    · simp_all
    by_cases hcvt : pyTruthy cv = true
    · simp only [hcvt, if_true] at hm
      simp at hm
      rw [hm] at hk
      exact absurd hk text_ne_tool_use
    · simp_all

theorem openaiStream_shape (lines : List Str) :
    ∀ m ∈ (openaiStream lines).events, m.kind = pys "tool_use" → oaToolShape m := by
  induction lines with
  | nil => simp [openaiStream]
  | cons line rest ih =>
      intro m hm hk
      unfold openaiStream at hm
      by_cases hpre : (pys "data: ").isPrefixOf line = true
      · simp only [hpre, if_true] at hm
        by_cases hdone : pyStrip (line.drop 6) = pys "[DONE]"
        · rw [if_pos hdone] at hm
          simp_all
        · rw [if_neg hdone] at hm
          rcases GenOut.mem_seq _ _ _ hm with h | h
          · exact openaiStreamLine_shape _ m h hk
          · exact ih m h hk
      · simp only [hpre, Bool.false_eq_true, if_false] at hm
        exact ih m hm hk

theorem openaiNonStream_shape (body : Str) :
    ∀ m ∈ (openaiNonStream body).events, m.kind = pys "tool_use" → oaToolShape m := by
  intro m hm hk
  unfold openaiNonStream at hm
  rcases hl : loads body with _ | data <;> rw [hl] at hm
  · simp_all
  rcases data with _ | _ | _ | _ | _ | dkvs
  all_goals try (solve | simp_all [usageOut, pyTruthy])
  simp only [] at hm
  rcases huo : usageOut (dictGetD dkvs (pys "usage") (.obj []))
      [pys "prompt_tokens", pys "prompt_token", pys "input_tokens"]
      [pys "completion_tokens", pys "output_tokens"] with e | ⟨pts, cts⟩ <;>
    rw [huo] at hm
  · simp_all
  simp only [] at hm
  rcases hch : dictGetD dkvs (pys "choices") (.arr [.obj []])
      with _ | _ | _ | _ | xs | _ <;> rw [hch] at hm <;> try simp_all
  rcases xs with _ | ⟨c0, xrest⟩
  · simp_all
  rcases c0 with _ | _ | _ | _ | _ | ckvs <;> try simp_all
  rcases hmsg : dictGetD ckvs (pys "message") (.obj [])
      with _ | _ | _ | _ | _ | msgKvs <;> rw [hmsg] at hm <;> try simp_all
  by_cases htc : hasKey msgKvs (pys "tool_calls") = true
  · simp only [htc, if_true] at hm
    rcases htcv : dictGetD msgKvs (pys "tool_calls") .null
        with _ | _ | _ | _ | calls | _ <;> rw [htcv] at hm <;> try simp_all
    exact openaiCallsNonStream_shape calls m hm
  · simp only [htc, Bool.false_eq_true, if_false] at hm
    by_cases hfc : hasKey msgKvs (pys "function_call") = true
    · simp only [hfc, if_true] at hm
      rcases hfcv : dictGetD msgKvs (pys "function_call") .null
          with _ | _ | _ | _ | _ | fkvs <;> rw [hfcv] at hm <;> try simp_all
      rcases hargs : dictGetD fkvs (pys "arguments") (.str ['{', '}'])
          with _ | _ | _ | s | _ | _ <;> rw [hargs] at hm <;> try simp_all
      rcases hls : loads s with _ | parsed <;> rw [hls] at hm <;> try simp_all
      exact ⟨_, _, Or.inr rfl⟩
    · simp only [hfc, Bool.false_eq_true, if_false] at hm
      by_cases hcvt : pyTruthy (dictGetD msgKvs (pys "content") .null) = true
      · simp only [hcvt, if_true] at hm
        simp at hm
        rw [hm] at hk
        exact absurd hk text_ne_tool_use
      · simp_all

theorem claudeBlocksOut_shape (bs : List PyVal) :
    ∀ m ∈ (claudeBlocksOut bs).1, m.kind = pys "tool_use" → claudeToolShape m := by
  induction bs with
  | nil => simp [claudeBlocksOut]
  | cons blk t ih =>
      intro m hm hk
      unfold claudeBlocksOut at hm
      rcases blk with _ | _ | _ | _ | _ | bkvs <;> try simp_all
      by_cases h1 : pyEqStr (dictGetD bkvs (pys "type") .null) "thinking" = true
      · simp only [h1, if_true] at hm
        simp at hm
        rcases hm with rfl | hm
        · exact absurd hk thinking_ne_tool_use
        · exact ih m hm hk
      · simp only [h1, Bool.false_eq_true, if_false] at hm
        by_cases h2 : pyEqStr (dictGetD bkvs (pys "type") .null) "tool_use" = true
        · simp only [h2, if_true] at hm
          simp at hm
          rcases hm with rfl | hm
          · exact ⟨_, _, _, rfl⟩
          · exact ih m hm hk
        · simp only [h2, Bool.false_eq_true, if_false] at hm
          by_cases h3 : pyEqStr (dictGetD bkvs (pys "type") .null) "text" = true
          · simp only [h3, if_true] at hm
            simp at hm
            rcases hm with rfl | hm
            · exact absurd hk text_ne_tool_use
            · exact ih m hm hk
          · simp only [h3, Bool.false_eq_true, if_false] at hm
            exact ih m hm hk

theorem claudeStreamLine_shape (ds : Str) :
    ∀ m ∈ (claudeStreamLine ds).events, m.kind = pys "tool_use" → claudeToolShape m := by
  intro m hm hk
  unfold claudeStreamLine at hm
  rcases hl : loads ds with _ | data <;> rw [hl] at hm
  · simp_all
  rcases data with _ | _ | _ | _ | _ | dkvs <;> try simp_all
  rcases hdelta : dictGetD dkvs (pys "delta") (.obj [])
      with _ | _ | _ | _ | _ | deltaKvs <;> rw [hdelta] at hm <;> try simp_all
  have htext : ∀ x ∈ (if hasKey deltaKvs (pys "text") = true then
      [(⟨pys "assistant", pys "text", dictGetD deltaKvs (pys "text") .null⟩ : Message)]
    else if hasKey deltaKvs (pys "thinking") = true then
      [⟨pys "assistant", pys "thinking", dictGetD deltaKvs (pys "thinking") .null⟩]
    else []), x.kind ≠ pys "tool_use" := by
    intro x hx
    by_cases ht : hasKey deltaKvs (pys "text") = true
    · simp only [ht, if_true] at hx
      simp at hx
      rw [hx]
      exact text_ne_tool_use
    · simp only [ht, Bool.false_eq_true, if_false] at hx
      by_cases hth : hasKey deltaKvs (pys "thinking") = true
      · simp only [hth, if_true] at hx
        simp at hx
        rw [hx]
        exact thinking_ne_tool_use
      · simp_all
  by_cases htu : hasKey deltaKvs (pys "tool_use") = true
  · simp only [htu, if_true] at hm
    rcases htv : dictGetD deltaKvs (pys "tool_use") .null
        with _ | _ | _ | _ | _ | tkvs <;> rw [htv] at hm <;>
      rw [streamLineOut_events] at hm
    · exact absurd hk (htext m hm)
    · exact absurd hk (htext m hm)
    · exact absurd hk (htext m hm)
    · exact absurd hk (htext m hm)
    · exact absurd hk (htext m hm)
    · rcases List.mem_append.mp hm with h | h
      · exact absurd hk (htext m h)
      · simp at h
        rw [h]
        exact ⟨_, _, _, rfl⟩
  · simp only [htu, Bool.false_eq_true, if_false] at hm
    rw [streamLineOut_events] at hm
    simp only [List.append_nil] at hm
    exact absurd hk (htext m hm)

theorem claudeStream_shape (lines : List Str) :
    ∀ m ∈ (claudeStream lines).events, m.kind = pys "tool_use" → claudeToolShape m := by
  induction lines with
  | nil => simp [claudeStream]
  | cons line rest ih =>
      intro m hm hk
      unfold claudeStream at hm
      by_cases hpre : (pys "data: ").isPrefixOf line = true
      · simp only [hpre, if_true] at hm
        by_cases hdone : pyStrip (line.drop 6) = pys "[DONE]"
        · rw [if_pos hdone] at hm
          simp_all
        · rw [if_neg hdone] at hm
          rcases GenOut.mem_seq _ _ _ hm with h | h
          · exact claudeStreamLine_shape _ m h hk
          · exact ih m h hk
      · simp only [hpre, Bool.false_eq_true, if_false] at hm
        exact ih m hm hk

theorem claudeNonStream_shape (body : Str) :
    ∀ m ∈ (claudeNonStream body).events, m.kind = pys "tool_use" → claudeToolShape m := by
  intro m hm hk
  unfold claudeNonStream at hm
  rcases hl : loads body with _ | data <;> rw [hl] at hm
  · simp_all
  rcases data with _ | _ | _ | _ | _ | dkvs
  all_goals try (solve | simp_all [usageOut, pyTruthy, claudeBlocksOut])
  simp only [] at hm
  rcases huo : usageOut (dictGetD dkvs (pys "usage") (.obj []))
      [pys "prompt_tokens", pys "prompt_token", pys "input_tokens"]
      [pys "completion_tokens", pys "output_tokens"] with e | ⟨pts, cts⟩ <;>
    rw [huo] at hm
  · simp_all
  simp only [] at hm
  rcases hbl : dictGetD dkvs (pys "content") (.arr [])
      with _ | _ | _ | _ | bs | _ <;> rw [hbl] at hm <;> try simp_all
  exact claudeBlocksOut_shape bs m hm hk

/-- A Claude 200 body carrying one `tool_use` block with id `i1`. -/
def claudeToolBody : PyVal :=
  .obj [(pys "content",
         .arr [.obj [(pys "type", .str (pys "tool_use")),
                     (pys "id", .str (pys "i1")),
                     (pys "name", .str (pys "f")),
                     (pys "input", .obj [])]])]

set_option maxRecDepth 16384 in
/-- Counterexample to C7: the OpenAI adapter's finalized `tool_use` event
for a complete call carries NO `call_id`: its content is the serialized
object `{"name": ..., "arguments": ...}`, which parses back to a dict
without any `call_id` key. -/
theorem C7_counterexample :
    openaiNonStream (dumps (oaNSBody [(pys "name", .str (pys "get_time")),
                                      (pys "arguments", .str ['{', '}'])])) =
      {events := [⟨pys "assistant", pys "tool_use",
                   .str (dumps (.obj [(pys "name", .str (pys "get_time")),
                                      (pys "arguments", .obj [])]))⟩]} ∧
    loads (dumps (.obj [(pys "name", .str (pys "get_time")),
                        (pys "arguments", .obj [])])) =
      some (.obj [(pys "name", .str (pys "get_time")), (pys "arguments", .obj [])]) ∧
    hasKey [(pys "name", .str (pys "get_time")), (pys "arguments", .obj [])]
      (pys "call_id") = false :=
  ⟨rfl, rfl, rfl⟩

/-- C7 as amended, one independent statement per adapter: every finalized
`tool_use` event the OpenAI-style adapter emits — for every response, in
both modes — carries only `name` and `arguments`, never a `call_id`; and
every finalized `tool_use` event the Anthropic-style adapter emits — for
every response, in both modes — carries a `call_id` key in its content
(copied from the wire block's id, possibly null). -/
theorem C7_call_id_claude_only :
    (∀ (stream : Bool) (resp : Response) (m : Message),
        m ∈ (openaiRespond stream resp).events → m.kind = pys "tool_use" →
        oaToolShape m) ∧
    (∀ (stream : Bool) (resp : Response) (m : Message),
        m ∈ (claudeRespond stream resp).events → m.kind = pys "tool_use" →
        claudeToolShape m) := by
  constructor
  · intro stream resp m hm hk
    unfold openaiRespond at hm
    by_cases hs : resp.status = 200
    · rw [if_neg (by simpa using hs)] at hm
      cases stream
      · simp only [Bool.false_eq_true, if_false] at hm
        exact openaiNonStream_shape _ m hm hk
      · simp only [if_true] at hm
        exact openaiStream_shape _ m hm hk
    · rw [if_pos hs] at hm
      simp at hm
      rw [hm] at hk
      exact absurd hk error_ne_tool_use
  · intro stream resp m hm hk
    unfold claudeRespond at hm
    by_cases hs : resp.status = 200
    · rw [if_neg (by simpa using hs)] at hm
      cases stream
      · simp only [Bool.false_eq_true, if_false] at hm
        exact claudeNonStream_shape _ m hm hk
      · simp only [if_true] at hm
        exact claudeStream_shape _ m hm hk
    · rw [if_pos hs] at hm
      simp at hm
      rw [hm] at hk
      exact absurd hk error_ne_tool_use

set_option maxRecDepth 16384 in
/-- Witness for C7's amended statement: each adapter's half applied to its
own independent fixture — an OpenAI-only tool response and a Claude-only
tool response. -/
theorem C7_call_id_claude_only_witness :
    oaToolShape ⟨pys "assistant", pys "tool_use",
      .str (dumps (.obj [(pys "name", .str (pys "f")), (pys "arguments", .obj [])]))⟩ ∧
    claudeToolShape ⟨pys "assistant", pys "tool_use",
      .obj [(pys "name", .str (pys "f")), (pys "arguments", .obj []),
            (pys "call_id", .str (pys "i1"))]⟩ :=
  ⟨C7_call_id_claude_only.1 false
     ⟨200, dumps (oaNSBody [(pys "name", .str (pys "f"))]), []⟩ _
     (List.Mem.head _) rfl,
   C7_call_id_claude_only.2 false ⟨200, dumps claudeToolBody, []⟩ _
     (List.Mem.head _) rfl⟩

end Prompti
